import Mathlib

/-
Verification of the estuary shuttle node (cmd/estuary-shuttle/main.go)
against its natural-language specification.

The Go source is shallowly embedded: database tables become lists of rows,
gorm calls become list operations, fallible external collaborators
(coordinator HTTP calls, DAG fetches, filesystem statfs, websocket sends)
become explicit parameters of type Except/Bool, and goroutine loops become
functions over the finite list of events they observe.  A Go function that
can return an error or crash is modelled with the GoResult type below.
-/

namespace Shuttle

/-- Outcome of a Go call: normal value, returned error, or a runtime crash
raised by the builtin crash primitive. -/
inductive GoResult (α : Type) where
  | ok (a : α)
  | err (e : String)
  | panicked (msg : String)
deriving DecidableEq, Repr

/-- Modelled from the spec (the struct declaration lives outside this file;
fields are those used by main.go and §3 of the spec): one row per content
root this shuttle stores.  `id` is the database primary key, `content` the
coordinator-assigned content record id. -/
structure Pin where
  id : Nat
  content : Nat
  cid : String
  userID : Nat
  active : Bool
  pinning : Bool
  failed : Bool
  size : Int
  createdAt : Nat
deriving DecidableEq, Repr

/-- Modelled from the spec: one row per unique content-addressed node
discovered during a DAG walk.  `id` is the database primary key assigned
on insert. -/
structure Object where
  id : Nat
  cid : String
  size : Nat
deriving DecidableEq, Repr

/-- Modelled from the spec: many-to-many join between Pin and Object,
each field holding the database primary key of the referenced row. -/
structure ObjRef where
  pin : Nat
  object : Nat
deriving DecidableEq, Repr

/-- The relational database state.  `nextPinId`/`nextObjId` model the
auto-increment primary-key counters gorm fills in on insert. -/
structure DB where
  pins : List Pin
  objects : List Object
  objrefs : List ObjRef
  nextPinId : Nat
  nextObjId : Nat
deriving DecidableEq, Repr

/-- clearUnreferencedObjects: takes the addPin lock and then crashes with
message "nyi" (the reclamation body is unimplemented in the source). -/
def clearUnreferencedObjects (db : DB) (pin : Nat) : GoResult Unit :=
  let _ := db
  let _ := pin
  .panicked "nyi"

/-- Unpin: looks the Pin up by primary key (`id = ?` with the contid
argument), deletes that Pin row, deletes the ObjRef rows whose `pin` field
equals the found row primary key, then calls clearUnreferencedObjects.
Returns the database state after the performed steps plus the outcome. -/
def Unpin (db : DB) (contid : Nat) : DB × GoResult Unit :=
  match db.pins.find? (fun p => p.id == contid) with
  | none => (db, .err "record not found")
  | some pin =>
    let db1 : DB := { db with pins := db.pins.filter (fun q => q.id != pin.id) }
    let db2 : DB := { db1 with objrefs := db1.objrefs.filter (fun r => r.pin != pin.id) }
    (db2, clearUnreferencedObjects db2 pin.id)

/-- Fuel-indexed worker for chunkList; the fuel starts at the list length,
which suffices because every step removes at least one element. -/
def chunkGo (n : Nat) : Nat → List α → List (List α)
  | _, [] => []
  | 0, xs => [xs]
  | fuel + 1, x :: xs =>
    if n = 0 then [x :: xs]
    else (x :: xs).take n :: chunkGo n fuel ((x :: xs).drop n)

/-- Splits a list into consecutive batches of at most n elements, as
gorm CreateInBatches does before issuing one insert per batch. -/
def chunkList (n : Nat) (xs : List α) : List (List α) :=
  chunkGo n xs.length xs

/-- One database write issued by addDatabaseTrackingToContent, in program
order: an Object insert batch, the pin column update, an ObjRef insert
batch. -/
inductive DbOp where
  | insertObjects (batch : List Object)
  | setActive (contid : Nat) (size : Int)
  | insertRefs (batch : List ObjRef)
deriving DecidableEq, Repr

def DbOp.isSetActive : DbOp → Bool
  | .setActive _ _ => true
  | _ => false

def DbOp.isInsert : DbOp → Bool
  | .insertObjects _ => true
  | .insertRefs _ => true
  | _ => false

/-- Result of a run of addDatabaseTrackingToContent: the database after the
performed writes, the ordered trace of writes, the outcome, and the
pin-complete message (content id, total size) if one was sent. -/
structure TrackResult where
  db : DB
  trace : List DbOp
  res : GoResult Unit
  sentPinComplete : Option (Nat × Int)
deriving DecidableEq, Repr

/-- addDatabaseTrackingToContent: finds the pin row by `content = ?`,
walks the DAG (the walk outcome — the visited (cid, size) list in visit
order — is a parameter, since fetching is external), then issues the
database writes in program order: Objects inserted in batches of 300, the
pin columns set to active=true/size=total/pinning=false, ObjRefs inserted
in batches of 500, and finally sends the pin-complete message. -/
def addDatabaseTrackingToContent (db : DB) (contid : Nat)
    (walk : Except String (List (String × Nat))) : TrackResult :=
  match db.pins.find? (fun p => p.content == contid) with
  | none => { db := db, trace := [], res := .err "record not found", sentPinComplete := none }
  | some dbpin =>
    match walk with
    | .error e => { db := db, trace := [], res := .err e, sentPinComplete := none }
    | .ok walked =>
      let objects : List Object :=
        walked.enum.map (fun cz => { id := db.nextObjId + cz.1, cid := cz.2.1, size := cz.2.2 })
      let totalSize : Int := walked.foldl (fun acc cz => acc + Int.ofNat cz.2) 0
      let db1 : DB := { db with objects := db.objects ++ objects,
                                nextObjId := db.nextObjId + objects.length }
      let db2 : DB := { db1 with pins := db1.pins.map (fun p =>
        if p.content == contid then { p with active := true, size := totalSize, pinning := false }
        else p) }
      let refs : List ObjRef := objects.map (fun o => { pin := dbpin.id, object := o.id })
      let db3 : DB := { db2 with objrefs := db2.objrefs ++ refs }
      { db := db3,
        trace := (chunkList 300 objects).map DbOp.insertObjects
                   ++ DbOp.setActive contid totalSize
                   :: (chunkList 500 refs).map DbOp.insertRefs,
        res := .ok (),
        sentPinComplete := some (dbpin.content, totalSize) }

/-- markFailed: the column update onPinStatusUpdate applies to every pin
row whose `content` column equals the reported content id. -/
def markFailed (cont : Nat) (p : Pin) : Pin :=
  if p.content == cont then { p with pinning := false, active := false, failed := true } else p

/-- The UpdatePinStatus message sent to the coordinator. -/
structure UpdatePinStatusMsg where
  dbid : Nat
  status : String
deriving DecidableEq, Repr

/-- onPinStatusUpdate: when the reported status string is "failed", sets
pinning=false, active=false, failed=true on every pin row with matching
`content` column; in every case enqueues an UpdatePinStatus message. -/
def onPinStatusUpdate (db : DB) (cont : Nat) (status : String) : DB × UpdatePinStatusMsg :=
  (if status == "failed" then { db with pins := db.pins.map (markFailed cont) } else db,
   { dbid := cont, status := status })

end Shuttle

namespace Shuttle

/-- A database instance exercising Unpin: one pin (primary key 1), whose
single object becomes unreferenced once the pin and its ref are deleted. -/
def unpinExampleDB : DB :=
  { pins := [{ id := 1, content := 5, cid := "bafy1", userID := 7,
               active := true, pinning := false, failed := false, size := 4, createdAt := 0 }],
    objects := [{ id := 10, cid := "bafy1", size := 4 }],
    objrefs := [{ pin := 1, object := 10 }],
    nextPinId := 2, nextObjId := 11 }

end Shuttle

/-- C1: the claim states that Unpin, having deleted the Pin row and its
ObjRef rows, reclaims every Object left with zero remaining ObjRef rows and
that the reclamation step completes normally.  On the code this is false:
clearUnreferencedObjects crashes with "nyi" before reclaiming anything.  At
the concrete input (a database holding pin 1 and a single now-unreferenced
object), Unpin deletes the pin and its refs, the object has zero remaining
refs, yet the object table is untouched and the call aborts with a crash. -/
theorem c1_reclamation_crashes :
    (Shuttle.Unpin Shuttle.unpinExampleDB 1).1.pins = [] ∧
    (Shuttle.Unpin Shuttle.unpinExampleDB 1).1.objrefs = [] ∧
    ((Shuttle.Unpin Shuttle.unpinExampleDB 1).1.objrefs.filter (fun r => r.object == 10)).length = 0 ∧
    (Shuttle.Unpin Shuttle.unpinExampleDB 1).1.objects = Shuttle.unpinExampleDB.objects ∧
    (Shuttle.Unpin Shuttle.unpinExampleDB 1).2 = .panicked "nyi" := by
  decide

/-- C10: Unpin selects the Pin row to delete by database primary key
(`id = ?` with the contid argument), while onPinStatusUpdate locates pins
by their coordinator-assigned `content` column; hence a Pin whose primary
key differs from the given content id survives Unpin applied to that
content id, even though the status-update path applied to the same number
does reach it through the `content` column. -/
theorem c10_unpin_keys_on_primary_key (db : Shuttle.DB) (contid : Nat) (p : Shuttle.Pin)
    (hp : p ∈ db.pins) (hne : p.id ≠ contid) :
    p ∈ (Shuttle.Unpin db contid).1.pins ∧
    (p.content = contid →
      Shuttle.markFailed contid p ∈ ((Shuttle.onPinStatusUpdate db contid "failed").1).pins ∧
      (Shuttle.markFailed contid p).failed = true) := by
  constructor
  · unfold Shuttle.Unpin
    cases hfind : db.pins.find? (fun q => q.id == contid) with
    | none => simpa using hp
    | some pin =>
      have hpin : pin.id = contid := by
        have := List.find?_some hfind
        simpa using this
      simp only []
      refine List.mem_filter.mpr ⟨hp, ?_⟩
      simp [hpin]
      omega
  · intro hc
    constructor
    · unfold Shuttle.onPinStatusUpdate
      simp only [beq_self_eq_true, if_pos]
      exact List.mem_map.mpr ⟨p, hp, rfl⟩
    · unfold Shuttle.markFailed
      simp [hc]

/-- Witness for C10 at a concrete input: a pin with primary key 1 and
content id 2 survives Unpin 2, and the status-update path at 2 marks it
failed. -/
theorem c10_witness :
    (let p : Shuttle.Pin := { id := 1, content := 2, cid := "bafy2", userID := 3,
                              active := true, pinning := false, failed := false,
                              size := 9, createdAt := 0 };
     let db : Shuttle.DB := { pins := [p], objects := [], objrefs := [],
                              nextPinId := 2, nextObjId := 1 };
     p ∈ (Shuttle.Unpin db 2).1.pins ∧
      (p.content = 2 →
        Shuttle.markFailed 2 p ∈ ((Shuttle.onPinStatusUpdate db 2 "failed").1).pins ∧
        (Shuttle.markFailed 2 p).failed = true)) := by
  exact c10_unpin_keys_on_primary_key _ 2 _ (by simp) (by decide)

namespace Shuttle

/-- The ordering property claimed for the write trace: the pin is marked
active only after both bulk insertions, i.e. no insert write follows the
setActive write. -/
def marksActiveAfterAllInserts (tr : List DbOp) : Prop :=
  ∀ i j : Fin tr.length, i < j → (tr.get i).isSetActive = true → (tr.get j).isInsert = false

/-- A database holding one pin (content id 1) ready for walk-and-record. -/
def trackExampleDB : DB :=
  { pins := [{ id := 1, content := 1, cid := "bafyroot", userID := 7,
               active := false, pinning := true, failed := false, size := 0, createdAt := 0 }],
    objects := [], objrefs := [], nextPinId := 2, nextObjId := 1 }

end Shuttle

/-- C2 counterexample: on a successful walk-and-record of a one-node DAG,
the write trace is [Object insert batch, setActive, ObjRef insert batch]:
the pin is marked active before the ObjRef insertion, so the claim that the
pin is marked active only after both insertions is false on the code. -/
theorem c2_counterexample :
    ¬ Shuttle.marksActiveAfterAllInserts
        ((Shuttle.addDatabaseTrackingToContent Shuttle.trackExampleDB 1
            (.ok [("bafyroot", 4)])).trace) := by
  unfold Shuttle.marksActiveAfterAllInserts
  decide

/-- C2 (amended): for every successful walk-and-record (pin row found by
content id, DAG walk succeeded), the pipeline first bulk-inserts the
visited Objects in batches of 300, then marks the Pin active (active=true,
pinning=false, size=total accumulated size), and only then bulk-inserts
the ObjRefs linking the Pin to every visited Object in batches of 500. -/
theorem c2_insert_order (db : Shuttle.DB) (contid : Nat) (walked : List (String × Nat))
    (dbpin : Shuttle.Pin)
    (hfind : db.pins.find? (fun p => p.content == contid) = some dbpin) :
    ∃ objects totalSize refs,
      (Shuttle.addDatabaseTrackingToContent db contid (.ok walked)).trace =
        (Shuttle.chunkList 300 objects).map Shuttle.DbOp.insertObjects
          ++ Shuttle.DbOp.setActive contid totalSize
          :: (Shuttle.chunkList 500 refs).map Shuttle.DbOp.insertRefs ∧
      (Shuttle.addDatabaseTrackingToContent db contid (.ok walked)).res = .ok () ∧
      ∀ p ∈ (Shuttle.addDatabaseTrackingToContent db contid (.ok walked)).db.pins,
        p.content = contid → p.active = true ∧ p.pinning = false ∧ p.size = totalSize := by
  refine ⟨walked.enum.map (fun cz => { id := db.nextObjId + cz.1, cid := cz.2.1, size := cz.2.2 }),
          walked.foldl (fun acc cz => acc + Int.ofNat cz.2) 0,
          (walked.enum.map (fun cz =>
              ({ id := db.nextObjId + cz.1, cid := cz.2.1, size := cz.2.2 } : Shuttle.Object))).map
            (fun o => { pin := dbpin.id, object := o.id }), ?_, ?_, ?_⟩
  · simp only [Shuttle.addDatabaseTrackingToContent, hfind]
  · simp only [Shuttle.addDatabaseTrackingToContent, hfind]
  · intro p hp hc
    simp only [Shuttle.addDatabaseTrackingToContent, hfind] at hp
    rcases List.mem_map.mp hp with ⟨q, _, hq⟩
    by_cases hqc : q.content == contid
    · subst hq
      simp only [hqc, if_pos] at *
      simp_all
    · exfalso
      rw [if_neg (by simpa using hqc)] at hq
      subst hq
      exact hqc (by simpa using hc)

/-- Witness for C2 at a concrete input: the amended ordering holds for the
one-pin database and a one-node walk. -/
theorem c2_witness :
    ∃ objects totalSize refs,
      (Shuttle.addDatabaseTrackingToContent Shuttle.trackExampleDB 1
          (.ok [("bafyroot", 4)])).trace =
        (Shuttle.chunkList 300 objects).map Shuttle.DbOp.insertObjects
          ++ Shuttle.DbOp.setActive 1 totalSize
          :: (Shuttle.chunkList 500 refs).map Shuttle.DbOp.insertRefs ∧
      (Shuttle.addDatabaseTrackingToContent Shuttle.trackExampleDB 1
          (.ok [("bafyroot", 4)])).res = .ok () ∧
      ∀ p ∈ (Shuttle.addDatabaseTrackingToContent Shuttle.trackExampleDB 1
          (.ok [("bafyroot", 4)])).db.pins,
        p.content = 1 → p.active = true ∧ p.pinning = false ∧ p.size = totalSize :=
  c2_insert_order Shuttle.trackExampleDB 1 [("bafyroot", 4)]
    { id := 1, content := 1, cid := "bafyroot", userID := 7,
      active := false, pinning := true, failed := false, size := 0, createdAt := 0 }
    (by decide)

namespace Shuttle

/-- The ShuttleUpdate snapshot gathered by getUpdatePacket. -/
structure ShuttleUpdate where
  pinQueueSize : Nat
  blockstoreSize : Nat
  blockstoreFree : Nat
  numPins : Nat
deriving DecidableEq, Repr

/-- Modelled from the spec: an outbound queue message; sendRpcMessage (not
under src) enqueues one message onto the RPC Session outbound queue.  The
update-reporter goroutine always sends a ShuttleUpdate message whose
payload pointer may be nil when gathering failed. -/
inductive ReporterMsg where
  | shuttleUpdate (upd : Option ShuttleUpdate)
deriving DecidableEq, Repr

/-- getUpdatePacket: reads the pin-queue size, calls statfs on the
blockstore path (blocks, bavail, bsize — external, may fail), counts the
active pins in the database; a statfs or count failure returns an error. -/
def getUpdatePacket (db : DB) (pinQueueSize : Nat)
    (statfs : Except String (Nat × Nat × Nat)) : Except String ShuttleUpdate :=
  match statfs with
  | .error e => .error e
  | .ok bst =>
    .ok { pinQueueSize := pinQueueSize,
          blockstoreSize := bst.1 * bst.2.2,
          blockstoreFree := bst.2.1 * bst.2.2,
          numPins := (db.pins.filter (fun p => p.active)).length }

/-- One iteration of the update-reporter goroutine body: gather the packet;
a gather failure is logged but the send still happens with the nil packet
(there is no early continue), so exactly one message is enqueued. -/
def updateReporterTick (gather : Except String ShuttleUpdate) : List ReporterMsg :=
  match gather with
  | .ok upd => [.shuttleUpdate (some upd)]
  | .error _ => [.shuttleUpdate none]

/-- The reporter goroutine over the finite sequence of gather outcomes it
observes: the first element is the immediate startup gather, the rest are
the one-minute ticks. -/
def updateReporterRun (gathers : List (Except String ShuttleUpdate)) : List ReporterMsg :=
  gathers.flatMap updateReporterTick

end Shuttle

/-- C3 counterexample: the claim states that on a tick whose gather fails no
message is sent.  On the code this is false: the goroutine logs the error
and still sends, so a failing tick enqueues one message (with a nil
snapshot) rather than none. -/
theorem c3_counterexample :
    ¬ ∀ e, Shuttle.updateReporterTick (.error e) = [] := by
  intro h
  have h1 := h "statfs failed"
  simp [Shuttle.updateReporterTick] at h1

/-- C3 (amended): the Update Reporter sends exactly one message at startup
and one per tick, in order; a tick whose gather succeeds carries that
snapshot, and a tick whose gather fails still sends a message, carrying a
nil snapshot (the failure is only logged); each tick proceeds
independently of the others. -/
theorem c3_one_message_per_tick (gathers : List (Except String Shuttle.ShuttleUpdate)) :
    Shuttle.updateReporterRun gathers =
      gathers.map (fun g => Shuttle.ReporterMsg.shuttleUpdate g.toOption) := by
  induction gathers with
  | nil => rfl
  | cons g gs ih =>
    cases g with
    | ok u => simpa [Shuttle.updateReporterRun, Shuttle.updateReporterTick, Except.toOption] using ih
    | error e => simpa [Shuttle.updateReporterRun, Shuttle.updateReporterTick, Except.toOption] using ih

namespace Shuttle

/-- The Hello frame: host, peer identity, default settlement address, and
the reachable address set. -/
structure Hello where
  host : String
  peerID : String
  address : String
  addrs : List String
deriving DecidableEq, Repr

/-- A frame written to the websocket connection. -/
inductive Frame where
  | hello (h : Hello)
  | message (m : String)
deriving DecidableEq, Repr

def Frame.isHello : Frame → Bool
  | .hello _ => true
  | .message _ => false

/-- One event observed by the select loop of runRpc: either the readDone
channel closed (the read goroutine exited on a read or decode error), or an
outgoing message became available, whose websocket send may fail. -/
inductive WriteEvent where
  | readClosed
  | outgoing (m : String) (sendFails : Bool)
deriving DecidableEq, Repr

/-- Whether the session loop has returned (aborting the session back to the
supervising reconnect loop) or is still running. -/
inductive LoopExit where
  | running
  | aborted (reason : String)
deriving DecidableEq, Repr

/-- getHelloMessage: fetches the default wallet address (external, may
fail) and assembles the Hello frame from the hostname, the host peer id
and its listen addresses. -/
def getHelloMessage (walletAddr : Except String String) (hostname pid : String)
    (addrs : List String) : Except String Hello :=
  match walletAddr with
  | .error e => .error e
  | .ok a => .ok { host := hostname, peerID := pid, address := a, addrs := addrs }

/-- The select loop of runRpc over the finite event sequence it observes:
readDone closing makes the loop return an error, aborting the session; an
outgoing message is written as a frame under the 30s write deadline, and a
send failure is only logged — the loop continues and no frame is
recorded. -/
def writeLoop : List WriteEvent → List Frame × LoopExit
  | [] => ([], .running)
  | .readClosed :: _ => ([], .aborted "read routine exited, assuming socket is closed")
  | .outgoing m fails :: rest =>
    let r := writeLoop rest
    if fails then r else (.message m :: r.1, r.2)

/-- runRpc: builds the Hello message and sends it as the first frame on the
fresh connection; a failure to build or to send it returns immediately,
before the read goroutine or the write loop start; otherwise the loops
run. -/
def runRpc (walletAddr : Except String String) (hostname pid : String)
    (addrs : List String) (helloSendFails : Bool) (events : List WriteEvent) :
    List Frame × LoopExit :=
  match getHelloMessage walletAddr hostname pid addrs with
  | .error e => ([], .aborted e)
  | .ok h =>
    if helloSendFails then ([], .aborted "hello send failed")
    else
      let r := writeLoop events
      (Frame.hello h :: r.1, r.2)

/-- No frame produced by the write loop is a Hello frame; helper for C8. -/
theorem writeLoop_no_hello (events : List WriteEvent) :
    (writeLoop events).1.all (fun f => !f.isHello) = true := by
  induction events with
  | nil => rfl
  | cons e rest ih =>
    cases e with
    | readClosed => rfl
    | outgoing m fails =>
      cases fails with
      | true => simpa [writeLoop] using ih
      | false => simpa [writeLoop, Frame.isHello] using ih

end Shuttle

/-- C4 counterexample: the claim states that a mid-stream write failure
aborts the whole session.  On the code this is false: the write loop logs
the send error and continues.  Concretely, after a failing send of "a" the
loop goes on to successfully write "b" and is still running. -/
theorem c4_counterexample :
    ¬ ∀ (m : String) (rest : List Shuttle.WriteEvent),
        (Shuttle.writeLoop (Shuttle.WriteEvent.outgoing m true :: rest)).2 ≠
          Shuttle.LoopExit.running := by
  intro h
  exact h "a" [Shuttle.WriteEvent.outgoing "b" false] (by decide)

/-- C4 (amended): a connection error observed by the read loop (readDone
closing) aborts the whole session back to the supervising reconnect loop,
writing nothing further; but a mid-stream write failure is only logged and
the write loop continues within the same session, behaving as if the
failing message had not been offered. -/
theorem c4_read_error_aborts (m : String) (rest : List Shuttle.WriteEvent) :
    Shuttle.writeLoop (Shuttle.WriteEvent.readClosed :: rest) =
      ([], Shuttle.LoopExit.aborted "read routine exited, assuming socket is closed") ∧
    Shuttle.writeLoop (Shuttle.WriteEvent.outgoing m true :: rest) =
      Shuttle.writeLoop rest := by
  constructor
  · rfl
  · simp [Shuttle.writeLoop]

/-- C8: on every connection attempt, a failure to build the Hello message
or to send it aborts the attempt with no frame written and without
entering the read/write loops; on a successful Hello send, the Hello frame
(host, peer identity, default settlement address, reachable address set)
is the first frame on the connection, and every later frame is an ordinary
queued message, never a Hello. -/
theorem c8_hello_first_frame (walletAddr : Except String String) (hostname pid : String)
    (addrs : List String) (hsf : Bool) (events : List Shuttle.WriteEvent) :
    Shuttle.runRpc walletAddr hostname pid addrs hsf events =
      (match walletAddr, hsf with
       | .error e, _ => ([], Shuttle.LoopExit.aborted e)
       | .ok _, true => ([], Shuttle.LoopExit.aborted "hello send failed")
       | .ok a, false =>
         (Shuttle.Frame.hello { host := hostname, peerID := pid, address := a, addrs := addrs }
            :: (Shuttle.writeLoop events).1, (Shuttle.writeLoop events).2)) ∧
    (Shuttle.writeLoop events).1.all (fun f => !f.isHello) = true := by
  refine ⟨?_, Shuttle.writeLoop_no_hello events⟩
  cases walletAddr with
  | error e => cases hsf <;> rfl
  | ok a => cases hsf <;> rfl

namespace Shuttle

/-- An entry of the trackingChannels map: the deal database id and the
last-observed channel state (nil until the first observed event). -/
structure ChanTrack where
  dbid : Nat
  last : Option Nat
deriving DecidableEq, Repr

/-- The outbound TransferStatus message. -/
structure TransferStatusMsg where
  chanid : String
  dealDBID : Nat
  state : Nat
deriving DecidableEq, Repr

/-- The SubscribeToDataTransferEvents callback, under the tracker mutex:
looks the channel id up in the tracking map; a missing entry returns with
no effect; otherwise, when the stored last state is nil or differs from
the event state, it stores the event state and enqueues one TransferStatus
message, else it discards the event. -/
def onTransferEvent (tracking : List (String × ChanTrack)) (chid : String) (status : Nat) :
    List (String × ChanTrack) × List TransferStatusMsg :=
  match tracking.find? (fun kv => kv.1 == chid) with
  | none => (tracking, [])
  | some kv =>
    let changed : Bool :=
      match kv.2.last with
      | none => true
      | some s => s != status
    if changed then
      (tracking.map (fun e => if e.1 == chid then (e.1, { e.2 with last := some status }) else e),
       [{ chanid := chid, dealDBID := kv.2.dbid, state := status }])
    else (tracking, [])

/-- Delivery of a finite sequence of (channel id, state) transfer events to
the callback, collecting the outbound messages in order. -/
def processEvents (tracking : List (String × ChanTrack)) :
    List (String × Nat) → List (String × ChanTrack) × List TransferStatusMsg
  | [] => (tracking, [])
  | ev :: rest =>
    let r1 := onTransferEvent tracking ev.1 ev.2
    let r2 := processEvents r1.1 rest
    (r2.1, r1.2 ++ r2.2)

/-- Worker for firstOccurrences, carrying the set of values already seen. -/
def firstOccurrencesAux (seen : List Nat) : List Nat → List Nat
  | [] => []
  | x :: xs =>
    if seen.contains x then firstOccurrencesAux seen xs
    else x :: firstOccurrencesAux (x :: seen) xs

/-- The distinct values of a list, in order of first occurrence. -/
def firstOccurrences (xs : List Nat) : List Nat := firstOccurrencesAux [] xs

/-- Suppression of consecutive repeats relative to a last-recorded value:
the event stream the tracker actually reports. -/
def destutterFrom (last : Option Nat) : List Nat → List Nat
  | [] => []
  | x :: xs => if last = some x then destutterFrom last xs else x :: destutterFrom (some x) xs

end Shuttle

/-- C5 counterexample: the claim states that for every event sequence on a
tracked channel the tracker emits exactly one message per distinct status
value, in order of first occurrence.  On the code this is false: the
tracker only suppresses repeats of the current last state, so for the
sequence of states 1, 2, 1 it emits 1, 2, 1 — the value 1 is reported
twice. -/
theorem c5_counterexample :
    ¬ ∀ (c : String) (dbid : Nat) (events : List Nat),
        ((Shuttle.processEvents [(c, ⟨dbid, none⟩)] (events.map (fun s => (c, s)))).2.map
            (fun m => m.state)) = Shuttle.firstOccurrences events := by
  intro h
  have h1 := h "c" 5 [1, 2, 1]
  revert h1
  decide

/-- C5 (amended): for a tracked channel with last-recorded state l0, the
emitted TransferStatus messages are exactly one per status change — the
event states with consecutive repeats (relative to the last recorded
state) suppressed — in order of occurrence, each carrying the channel id
and its deal database id; and an event for a channel with no tracker entry
is silently ignored (no state change, no message). -/
theorem c5_dedup_consecutive (c : String) (dbid : Nat) (l0 : Option Nat) (events : List Nat)
    (tracking : List (String × Shuttle.ChanTrack)) (d : String) (st : Nat)
    (hd : tracking.find? (fun kv => kv.1 == d) = none) :
    (Shuttle.processEvents [(c, ⟨dbid, l0⟩)] (events.map (fun s => (c, s)))).2 =
      (Shuttle.destutterFrom l0 events).map (fun s => ⟨c, dbid, s⟩) ∧
    Shuttle.onTransferEvent tracking d st = (tracking, []) := by
  constructor
  · induction events generalizing l0 with
    | nil => rfl
    | cons x xs ih =>
      cases l0 with
      | none =>
        simp only [List.map_cons, Shuttle.processEvents, Shuttle.onTransferEvent,
          List.find?_cons, beq_self_eq_true, Shuttle.destutterFrom]
        simp [ih (some x)]
      | some s =>
        by_cases hs : s = x
        · subst hs
          simp only [List.map_cons, Shuttle.processEvents, Shuttle.onTransferEvent,
            List.find?_cons, beq_self_eq_true, Shuttle.destutterFrom]
          simpa using ih _
        · simp only [List.map_cons, Shuttle.processEvents, Shuttle.onTransferEvent,
            List.find?_cons, beq_self_eq_true, Shuttle.destutterFrom]
          simp [ih (some x), hs, bne_iff_ne, Ne.symm hs]
  · simp [Shuttle.onTransferEvent, hd]

/-- Witness for C5 at a concrete input: a tracked channel starting from a
nil last state over the states 1, 1, 2 emits 1 then 2, and an event for
the untracked channel "z" on an empty tracking map is ignored. -/
theorem c5_witness :
    (Shuttle.processEvents [("c", ⟨5, none⟩)] ([1, 1, 2].map (fun s => ("c", s)))).2 =
      (Shuttle.destutterFrom none [1, 1, 2]).map (fun s => ⟨"c", 5, s⟩) ∧
    Shuttle.onTransferEvent [] "z" 3 = ([], []) :=
  c5_dedup_consecutive "c" 5 none [1, 1, 2] [] "z" 3 (by decide)

namespace Shuttle

/-- A pinner.PinningOperation as built by addPinToQueue: the coordinator
content id, the owning user, the root address, the origin peer hints, the
queue status string and the replacement target. -/
structure PinningOperation where
  contId : Nat
  userId : Nat
  obj : String
  peers : List String
  started : Nat
  status : String
  replace : Nat
deriving DecidableEq, Repr

/-- doPinning: connects to the origin peers (failures only logged), then
runs addDatabaseTrackingToContent over a bitswap-backed DAG service; on
error it returns that error with no further database write — the failure
column update in the source is commented out; on success the two provide
announcements are fire-and-forget (failures logged) and nil is returned. -/
def doPinning (db : DB) (op : PinningOperation)
    (walk : Except String (List (String × Nat))) : DB × GoResult Unit :=
  let t := addDatabaseTrackingToContent db op.contId walk
  match t.res with
  | .ok _ => (t.db, .ok ())
  | .err e => (t.db, .err e)
  | .panicked m => (t.db, .panicked m)

end Shuttle

/-- C6: when the ingestion step of processing a Pin fails (the DAG walk
returns an error), doPinning returns the error and the pin table is
untouched — in particular the pinning/active/failed flags keep their
values, leaving the Pin non-terminal; and whenever the status-update
callback receives the status string "failed" for a content id, every pin
row with that content id gets pinning=false, active=false, failed=true. -/
theorem c6_failure_paths (db : Shuttle.DB) (op : Shuttle.PinningOperation)
    (walk : Except String (List (String × Nat))) (e : String) (cont : Nat)
    (h : (Shuttle.doPinning db op walk).2 = .err e) :
    (Shuttle.doPinning db op walk).1.pins = db.pins ∧
    ∀ q ∈ ((Shuttle.onPinStatusUpdate db cont "failed").1).pins,
      q.content = cont → q.pinning = false ∧ q.active = false ∧ q.failed = true := by
  constructor
  · unfold Shuttle.doPinning Shuttle.addDatabaseTrackingToContent at h ⊢
    cases hfind : db.pins.find? (fun p => p.content == op.contId) with
    | none => rfl
    | some dbpin =>
      cases walk with
      | error we => rfl
      | ok walked => simp [hfind] at h
  · intro q hq hqc
    unfold Shuttle.onPinStatusUpdate at hq
    simp only [beq_self_eq_true, if_pos] at hq
    rcases List.mem_map.mp hq with ⟨r, _, hr⟩
    unfold Shuttle.markFailed at hr
    by_cases hrc : r.content == cont
    · rw [if_pos hrc] at hr
      subst hr
      exact ⟨rfl, rfl, rfl⟩
    · rw [if_neg hrc] at hr
      subst hr
      exact absurd (by simpa using hqc) hrc

namespace Shuttle

/-- The authenticated principal resolved from the coordinator viewer
endpoint; storageDisabled mirrors the ContentAddingDisabled setting. -/
structure User where
  id : Nat
  username : String
  perms : Int
  storageDisabled : Bool
deriving DecidableEq, Repr

/-- Modelled from the spec: the content-adding-disabled error code of the
util package (its declaration is outside this file); handleAdd returns it
verbatim in the 400 error body. -/
def ERR_CONTENT_ADDING_DISABLED : String := "content adding disabled"

/-- An HTTP handler outcome: a JSON reply, a structured HttpError with a
numeric code and message, or a bare Go error bubbled to the framework. -/
inductive HttpResponse where
  | json (code : Nat) (body : List (String × String))
  | httpError (code : Nat) (message : String)
  | goError (e : String)
deriving DecidableEq, Repr

/-- createContent: posts root/name/collections/location to the coordinator
(the transported response id is a parameter here) and treats a decoded id
of zero as a request failure. -/
def createContent (resp : Except String Nat) : Except String Nat :=
  match resp with
  | .error e => .error e
  | .ok rid =>
    if rid == 0 then .error "create content request failed, got back content ID zero"
    else .ok rid

/-- Outcomes of the external collaborators one POST /content/add request
touches: multipart form parsing, importFile (root address of the built
DAG), the coordinator createContent response, the DAG walk inside
addDatabaseTrackingToContent, and the staging-to-main blockstore copy. -/
structure AddExternals where
  formOk : Bool
  importRes : Except String String
  createResp : Except String Nat
  walkRes : Except String (List (String × Nat))
  dumpOk : Bool
deriving Repr

/-- handleAdd: rejects a storage-disabled user with a 400 HttpError before
touching anything; otherwise parses the form, imports the file, creates
the content record at the coordinator, inserts the Pin row
(active=false, pinning=true), runs addDatabaseTrackingToContent, copies
staging into the main blockstore, and replies 200 with the root address
under the "cid" key. -/
def handleAdd (db : DB) (u : User) (ext : AddExternals) : DB × HttpResponse :=
  if u.storageDisabled then
    (db, .httpError 400 ERR_CONTENT_ADDING_DISABLED)
  else if !ext.formOk then (db, .goError "bad multipart form")
  else
    match ext.importRes with
    | .error e => (db, .goError e)
    | .ok rootCid =>
      match createContent ext.createResp with
      | .error e => (db, .goError e)
      | .ok contid =>
        let pin : Pin := { id := db.nextPinId, content := contid, cid := rootCid,
                           userID := u.id, active := false, pinning := true, failed := false,
                           size := 0, createdAt := 0 }
        let db1 : DB := { db with pins := db.pins ++ [pin], nextPinId := db.nextPinId + 1 }
        let t := addDatabaseTrackingToContent db1 contid ext.walkRes
        match t.res with
        | .err e => (t.db, .goError ("encountered problem computing object references: " ++ e))
        | .panicked m => (t.db, .goError m)
        | .ok _ =>
          if ext.dumpOk then (t.db, .json 200 [("cid", rootCid)])
          else (t.db, .goError "failed to move data from staging to main blockstore")

/-- When the pin row exists, a successful walk makes
addDatabaseTrackingToContent return nil; helper for C7. -/
theorem addDatabaseTrackingToContent_ok (db : DB) (contid : Nat)
    (walked : List (String × Nat))
    (h : (db.pins.find? (fun p => p.content == contid)).isSome = true) :
    (addDatabaseTrackingToContent db contid (.ok walked)).res = .ok () := by
  unfold addDatabaseTrackingToContent
  cases hfind : db.pins.find? (fun p => p.content == contid) with
  | none => rw [hfind] at h; simp at h
  | some dbpin => rfl

/-- The success path of handleAdd replies 200 with the root address;
helper for C7. -/
theorem handleAdd_success (db : DB) (u : User) (ext : AddExternals) (root : String)
    (contid : Nat) (walked : List (String × Nat))
    (hdis : u.storageDisabled = false) (hform : ext.formOk = true)
    (himp : ext.importRes = .ok root) (hcreate : ext.createResp = .ok contid)
    (hnz : contid ≠ 0) (hwalk : ext.walkRes = .ok walked) (hdump : ext.dumpOk = true) :
    (handleAdd db u ext).2 = .json 200 [("cid", root)] := by
  unfold handleAdd
  rw [hdis, hform, himp, hcreate, hwalk, hdump]
  simp only [Bool.false_eq_true, if_false, Bool.not_true, createContent]
  rw [if_neg (by simpa using hnz)]
  simp only []
  rw [addDatabaseTrackingToContent_ok]
  · simp
  · rw [List.find?_append]
    cases db.pins.find? (fun p => p.content == contid) <;>
      simp [List.find?_cons, List.find?]

end Shuttle

/-- C7: an authenticated POST /content/add by a user whose storage-disabled
flag is set returns the 400 structured HttpError carrying the
content-adding-disabled code, with the database unchanged (no Pin row
created); and a request that completes successfully (form parsed, import
succeeded, coordinator returned a nonzero content id, walk and blockstore
copy succeeded) returns 200 with a JSON body whose "cid" field is the root
content-address string. -/
theorem c7_add_disabled_and_success (db : Shuttle.DB) (u u2 : Shuttle.User)
    (ext : Shuttle.AddExternals) (root : String) (contid : Nat)
    (walked : List (String × Nat)) (hdis : u.storageDisabled = true) :
    Shuttle.handleAdd db u ext = (db, .httpError 400 Shuttle.ERR_CONTENT_ADDING_DISABLED) ∧
    (u2.storageDisabled = false → ext.formOk = true → ext.importRes = .ok root →
      ext.createResp = .ok contid → contid ≠ 0 → ext.walkRes = .ok walked →
      ext.dumpOk = true →
      (Shuttle.handleAdd db u2 ext).2 = .json 200 [("cid", root)]) := by
  constructor
  · simp [Shuttle.handleAdd, hdis]
  · intro hdis2 hform himp hcreate hnz hwalk hdump
    exact Shuttle.handleAdd_success db u2 ext root contid walked
      hdis2 hform himp hcreate hnz hwalk hdump

namespace Shuttle

/-- An empty database, before any upload. -/
def addExampleDB : DB :=
  { pins := [], objects := [], objrefs := [], nextPinId := 1, nextObjId := 1 }

/-- A storage-disabled user. -/
def addExampleUserDisabled : User :=
  { id := 1, username := "alice", perms := 2, storageDisabled := true }

/-- A storage-enabled user. -/
def addExampleUserEnabled : User :=
  { id := 2, username := "bob", perms := 2, storageDisabled := false }

/-- External outcomes of an upload on which every collaborator succeeds. -/
def addExampleExt : AddExternals :=
  { formOk := true, importRes := .ok "bafyroot", createResp := .ok 9,
    walkRes := .ok [("bafyroot", 4)], dumpOk := true }

end Shuttle

/-- Witness for C7 at concrete inputs: the storage-disabled user gets the
400 content-adding-disabled HttpError with the empty database unchanged,
and the storage-enabled user on an all-green request gets 200 with the
root address under "cid". -/
theorem c7_witness :
    Shuttle.handleAdd Shuttle.addExampleDB Shuttle.addExampleUserDisabled Shuttle.addExampleExt
        = (Shuttle.addExampleDB, .httpError 400 Shuttle.ERR_CONTENT_ADDING_DISABLED) ∧
    (Shuttle.handleAdd Shuttle.addExampleDB Shuttle.addExampleUserEnabled
        Shuttle.addExampleExt).2 = .json 200 [("cid", "bafyroot")] :=
  ⟨(c7_add_disabled_and_success Shuttle.addExampleDB Shuttle.addExampleUserDisabled
      Shuttle.addExampleUserEnabled Shuttle.addExampleExt "bafyroot" 9 [("bafyroot", 4)] rfl).1,
   (c7_add_disabled_and_success Shuttle.addExampleDB Shuttle.addExampleUserDisabled
      Shuttle.addExampleUserEnabled Shuttle.addExampleExt "bafyroot" 9 [("bafyroot", 4)] rfl).2
     rfl rfl rfl rfl (by decide) rfl rfl⟩

namespace Shuttle

/-- addPinToQueue: builds a PinningOperation from a Pin row, carrying the
given peer hints and replacement target and the status "queued", and hands
it to the pin manager. -/
def addPinToQueue (p : Pin) (peers : List String) (replace : Nat) : PinningOperation :=
  { contId := p.content, userId := p.userID, obj := p.cid, peers := peers,
    started := p.createdAt, status := "queued", replace := replace }

/-- refreshPinQueue: selects the persisted pins with active = false and
pinning = true and enqueues each of them with no peer hints and
replacement target zero. -/
def refreshPinQueue (db : DB) : List PinningOperation :=
  (db.pins.filter (fun p => p.active == false && p.pinning == true)).map
    (fun p => addPinToQueue p [] 0)

end Shuttle

/-- C9: at startup, refreshPinQueue enqueues every persisted Pin with
active=false and pinning=true exactly once (assuming content ids are
unique across pin rows), with no peer hints and no replacement target and
status "queued"; a Pin with any other flag combination contributes no
queue entry. -/
theorem c9_requeue_exactly_once (db : Shuttle.DB) (p : Shuttle.Pin)
    (hnd : (db.pins.map (fun q => q.content)).Nodup) (hp : p ∈ db.pins) :
    (p.active = false ∧ p.pinning = true →
       (Shuttle.refreshPinQueue db).count (Shuttle.addPinToQueue p [] 0) = 1) ∧
    (¬ (p.active = false ∧ p.pinning = true) →
       ∀ op ∈ Shuttle.refreshPinQueue db, op.contId ≠ p.content) ∧
    (∀ op ∈ Shuttle.refreshPinQueue db,
       op.peers = [] ∧ op.replace = 0 ∧ op.status = "queued") := by
  have hinj : ∀ ⦃x⦄, x ∈ db.pins → ∀ ⦃y⦄, y ∈ db.pins → x.content = y.content → x = y :=
    List.inj_on_of_nodup_map hnd
  refine ⟨?_, ?_, ?_⟩
  · rintro ⟨ha, hpin⟩
    unfold Shuttle.refreshPinQueue
    rw [List.count_eq_countP, List.countP_map]
    have hpf : p ∈ db.pins.filter (fun q => q.active == false && q.pinning == true) :=
      List.mem_filter.mpr ⟨hp, by simp [ha, hpin]⟩
    have hfl : (db.pins.filter (fun q => q.active == false && q.pinning == true)).Nodup :=
      (List.Nodup.of_map _ hnd).filter _
    have hcongr : List.countP
        ((fun x => x == Shuttle.addPinToQueue p [] 0) ∘ fun q => Shuttle.addPinToQueue q [] 0)
        (db.pins.filter (fun q => q.active == false && q.pinning == true)) =
        List.countP (fun q => q == p)
          (db.pins.filter (fun q => q.active == false && q.pinning == true)) := by
      apply List.countP_congr
      intro x hx
      have hxdb : x ∈ db.pins := List.mem_of_mem_filter hx
      simp only [Function.comp, beq_iff_eq]
      constructor
      · intro hxx
        exact hinj hxdb hp (congrArg Shuttle.PinningOperation.contId hxx)
      · intro hxx
        rw [hxx]
    rw [hcongr, ← List.count_eq_countP, List.count_eq_one_of_mem hfl hpf]
  · intro hnm op hop
    unfold Shuttle.refreshPinQueue at hop
    rcases List.mem_map.mp hop with ⟨q, hqf, rfl⟩
    rcases List.mem_filter.mp hqf with ⟨hqdb, hqcond⟩
    intro hcc
    cases hinj hqdb hp hcc
    simp only [Bool.and_eq_true, beq_iff_eq] at hqcond
    exact hnm ⟨hqcond.1, hqcond.2⟩
  · intro op hop
    unfold Shuttle.refreshPinQueue at hop
    rcases List.mem_map.mp hop with ⟨q, _, rfl⟩
    exact ⟨rfl, rfl, rfl⟩

namespace Shuttle

/-- A database with one pin left mid-pinning and one finished pin. -/
def restoreExampleDB : DB :=
  { pins := [{ id := 1, content := 1, cid := "bafya", userID := 7,
               active := false, pinning := true, failed := false, size := 0, createdAt := 3 },
             { id := 2, content := 2, cid := "bafyb", userID := 7,
               active := true, pinning := false, failed := false, size := 5, createdAt := 1 }],
    objects := [], objrefs := [], nextPinId := 3, nextObjId := 1 }

/-- The mid-pinning row of restoreExampleDB. -/
def restoreExamplePin : Pin :=
  { id := 1, content := 1, cid := "bafya", userID := 7,
    active := false, pinning := true, failed := false, size := 0, createdAt := 3 }

end Shuttle

/-- Witness for C9 at a concrete input: the database with one mid-pinning
row and one active row re-enqueues the mid-pinning row exactly once. -/
theorem c9_witness :
    (Shuttle.refreshPinQueue Shuttle.restoreExampleDB).count
      (Shuttle.addPinToQueue Shuttle.restoreExamplePin [] 0) = 1 :=
  (c9_requeue_exactly_once Shuttle.restoreExampleDB Shuttle.restoreExamplePin
      (by decide) (by decide)).1 ⟨rfl, rfl⟩

/-- Witness for C6 at a concrete input: a failing DAG walk leaves the pin
table of the one-pin database unchanged. -/
theorem c6_witness :
    (Shuttle.doPinning Shuttle.trackExampleDB
        { contId := 1, userId := 7, obj := "bafyroot", peers := [], started := 0,
          status := "queued", replace := 0 }
        (.error "fetch failed")).1.pins = Shuttle.trackExampleDB.pins :=
  (c6_failure_paths Shuttle.trackExampleDB
      { contId := 1, userId := 7, obj := "bafyroot", peers := [], started := 0,
        status := "queued", replace := 0 }
      (.error "fetch failed") "fetch failed" 1 (by decide)).1
